import Mathlib

/-!
Verification development for the RAG frontend client.

The embedded code is the client-side logic of `FileUploader.jsx`
(file validation, upload submission, progress simulation, cancel) and
`ChatPage.jsx` (chat transcript handling).  React state updates are
modelled as explicit state-passing: each event handler becomes a function
from the component state (and, for `async` handlers, the eventual outcome
of the awaited request) to the new state, paired with flags recording the
externally visible effects (whether a network request was issued, whether
a delayed timer task was scheduled).  Wall-clock timestamps carried by
chat turns are elided: no property below concerns them.
-/

namespace Rag

/-- A candidate file as the validator sees it: `name` and `size` in bytes. -/
structure JsFile where
  name : String
  size : Nat
deriving Repr, DecidableEq

/-- `allowedTypes` from FileUploader.jsx: the dotted extension allow-list. -/
def allowedTypes : List String := [".pdf", ".txt", ".docx", ".doc", ".csv", ".md"]

/-- `maxFileSize = 10 * 1024 * 1024` from FileUploader.jsx. -/
def maxFileSize : Nat := 10 * 1024 * 1024

/-- JavaScript `name.split(".").pop()` over the character list: the suffix
after the last `'.'` (the whole list when no dot occurs; empty when the
list ends with a dot).  The fold restarts the accumulator at every dot,
exactly how the last piece of `split(".")` is formed. -/
def afterLastDot (cs : List Char) : List Char :=
  cs.foldl (fun acc c => if c = '.' then [] else acc ++ [c]) []

/-- JavaScript `toLowerCase()`, character by character (`Char.toLower`
lower-cases the ASCII range, which covers every extension in play). -/
def jsToLower (s : String) : String :=
  String.mk (s.data.map Char.toLower)

/-- JavaScript `trim()`: strip whitespace from both ends. -/
def jsTrim (s : String) : String :=
  String.mk (((s.data.dropWhile Char.isWhitespace).reverse.dropWhile Char.isWhitespace).reverse)

/-- `"." + file.name.split(".").pop().toLowerCase()` from `validateFiles`. -/
def fileExtension (name : String) : String :=
  "." ++ jsToLower (String.mk (afterLastDot name.data))

/-- Outcome of the per-file branch inside `validateFiles`. -/
inductive FileOutcome where
  | accepted
  | rejectedInvalidType
  | rejectedTooLarge
deriving Repr, DecidableEq

/-- The branch of the `forEach` body of `validateFiles`: first the
extension test (`!allowedTypes.includes(extension)`), then the size test
(`file.size > maxFileSize`), otherwise accepted. -/
def classifyFile (f : JsFile) : FileOutcome :=
  if fileExtension f.name ∉ allowedTypes then .rejectedInvalidType
  else if f.size > maxFileSize then .rejectedTooLarge
  else .accepted

/-- The message pushed onto `invalidFiles` for a rejected file. -/
def rejectionMsg (f : JsFile) : String :=
  match classifyFile f with
  | .rejectedInvalidType => f.name ++ " - Invalid file type"
  | .rejectedTooLarge => f.name ++ " - File too large (max 10MB)"
  | .accepted => ""

/-- Return value of `validateFiles`: `{ validFiles, invalidFiles }`. -/
structure ValidationResult where
  validFiles : List JsFile
  invalidFiles : List String
deriving Repr, DecidableEq

/-- `validateFiles` from FileUploader.jsx: walk the file list in order,
pushing each file onto `validFiles` or its message onto `invalidFiles`. -/
def validateFiles : List JsFile → ValidationResult
  | [] => { validFiles := [], invalidFiles := [] }
  | f :: rest =>
    let r := validateFiles rest
    match classifyFile f with
    | .rejectedInvalidType =>
        { validFiles := r.validFiles,
          invalidFiles := (f.name ++ " - Invalid file type") :: r.invalidFiles }
    | .rejectedTooLarge =>
        { validFiles := r.validFiles,
          invalidFiles := (f.name ++ " - File too large (max 10MB)") :: r.invalidFiles }
    | .accepted =>
        { validFiles := f :: r.validFiles, invalidFiles := r.invalidFiles }

/-- The allow-list as the spec states it: bare lower-case extensions. -/
def allowedExts : List String := ["pdf", "txt", "docx", "doc", "csv", "md"]

/-- The spec-side reading of the extension rule: the substring after the
last dot of the name, lower-cased, belongs to {pdf, txt, docx, doc, csv, md}. -/
def extAllowed (name : String) : Prop :=
  jsToLower (String.mk (afterLastDot name.data)) ∈ allowedExts

instance decExtAllowed (name : String) : Decidable (extAllowed name) :=
  inferInstanceAs (Decidable (_ ∈ _))

/-- The `message` state of the uploader: `{ text, type }`. -/
structure Message where
  text : String
  type : String
deriving Repr, DecidableEq

/-- State of one FileUploader instance.  `requestInFlight` records an
issued, not yet settled upload request; `intervalActive` records a running
progress-simulation interval. -/
structure UploaderState where
  files : List JsFile
  message : Message
  isUploading : Bool
  uploadProgress : Nat
  requestInFlight : Bool
  intervalActive : Bool
deriving Repr, DecidableEq

/-- `handleFilesChange` from FileUploader.jsx: validate the chosen batch;
a nonempty rejection list sets the aggregate error message, an all-accepted
batch clears the message; the selection becomes the accepted subset. -/
def handleFilesChange (fileList : List JsFile) (s : UploaderState) : UploaderState :=
  if fileList.length = 0 then s
  else
    let r := validateFiles fileList
    if r.invalidFiles.length > 0 then
      { s with files := r.validFiles,
               message := { text := "Invalid files: " ++ String.intercalate ", " r.invalidFiles,
                            type := "error" } }
    else
      { s with files := r.validFiles, message := { text := "", type := "" } }

/-- `handleDrop` from FileUploader.jsx: like `handleFilesChange` but with
no else-branch clearing the message when every file is accepted. -/
def handleDrop (droppedFiles : List JsFile) (s : UploaderState) : UploaderState :=
  if droppedFiles.length = 0 then s
  else
    let r := validateFiles droppedFiles
    if r.invalidFiles.length > 0 then
      { s with files := r.validFiles,
               message := { text := "Invalid files: " ++ String.intercalate ", " r.invalidFiles,
                            type := "error" } }
    else
      { s with files := r.validFiles }

/-- Outcome of the awaited upload request in `handleSubmit`: a success
carries the backend's `message` field; a failure carries the optional
`error.response.data.detail` and `error.response.data.message` fields. -/
inductive UploadOutcome where
  | success (message : String)
  | failure (detail : Option String) (errMessage : Option String)
deriving Repr, DecidableEq

/-- Synchronous prefix of `handleSubmit` (up to the `await`): the
empty-selection guard, the state resets, starting the progress interval and
issuing the request.  The boolean records whether a request was issued. -/
def handleSubmitStart (s : UploaderState) : UploaderState × Bool :=
  if s.files.length = 0 then
    ({ s with message := { text := "Please select files to upload", type := "error" } }, false)
  else
    ({ s with isUploading := true, uploadProgress := 0,
              message := { text := "", type := "" },
              intervalActive := true, requestInFlight := true }, true)

/-- One tick of the progress interval: `+5` every 300 ms, self-clearing at
80 while the real request is outstanding. -/
def progressTick (s : UploaderState) : UploaderState :=
  if s.intervalActive then
    if s.uploadProgress ≥ 80 then { s with intervalActive := false, uploadProgress := 80 }
    else { s with uploadProgress := s.uploadProgress + 5 }
  else s

/-- JavaScript `a || b` for an optional string field `a`: `b` when the
field is absent or the empty string (both falsy), else the field's value. -/
def jsOrElse (a : Option String) (b : String) : String :=
  match a with
  | some v => if v = "" then b else v
  | none => b

/-- The generic fallback text of the catch-branch of `handleSubmit`. -/
def uploadErrorFallback : String := "Error uploading files. Please try a smaller file."

/-- `error.response?.data?.detail || error.response?.data?.message ||
"Error uploading files. Please try a smaller file."`. -/
def failureText (detail errMessage : Option String) : String :=
  jsOrElse detail (jsOrElse errMessage uploadErrorFallback)

/-- Continuation of `handleSubmit` after the awaited request settles,
including the `finally` block.  It runs whenever the promise settles,
whether or not `cancelUpload` ran in between.  The second component is the
delay in milliseconds of a scheduled progress-reset timer, if any
(`setTimeout(() => setUploadProgress(0), 2000)` on success). -/
def handleSubmitResponse (outcome : UploadOutcome) (s : UploaderState) :
    UploaderState × Option Nat :=
  match outcome with
  | .success m =>
      ({ s with intervalActive := false, uploadProgress := 100,
                message := { text := m, type := "success" },
                files := [], requestInFlight := false, isUploading := false }, some 2000)
  | .failure detail errMessage =>
      ({ s with uploadProgress := 0,
                message := { text := failureText detail errMessage, type := "error" },
                requestInFlight := false, isUploading := false }, none)

/-- The task scheduled by the success path's `setTimeout`. -/
def progressResetTask (s : UploaderState) : UploaderState :=
  { s with uploadProgress := 0 }

/-- `cancelUpload` from FileUploader.jsx: display-state only; it neither
aborts the in-flight request nor clears the progress interval. -/
def cancelUpload (s : UploaderState) : UploaderState :=
  { s with isUploading := false, uploadProgress := 0,
           message := { text := "Upload cancelled", type := "warning" } }

/-- One turn of the chat transcript (timestamps elided). -/
structure ChatTurn where
  sender : String
  text : String
  sources : Option (List String)
deriving Repr, DecidableEq

/-- State of one ChatPage instance. -/
structure ChatState where
  messages : List ChatTurn
  input : String
  loading : Bool
deriving Repr, DecidableEq

/-- Outcome of the awaited `askQuestion` request: a success carries the
`answer` field and the optional `sources` field. -/
inductive AskOutcome where
  | success (answer : String) (sources : Option (List String))
  | failure
deriving Repr, DecidableEq

/-- The fixed apology text of the catch-branch of `sendMessage`. -/
def chatErrorFallback : String :=
  "Sorry, I encountered an error while processing your request. Please try again."

/-- `sendMessage` from ChatPage.jsx with the awaited request's outcome
supplied explicitly.  The boolean records whether the request was issued. -/
def sendMessage (outcome : AskOutcome) (s : ChatState) : ChatState × Bool :=
  if jsTrim s.input = "" then (s, false)
  else
    let userMsg : ChatTurn := { sender := "user", text := s.input, sources := none }
    let afterUser : ChatState :=
      { s with messages := s.messages ++ [userMsg], input := "", loading := true }
    match outcome with
    | .success answer sources =>
        ({ afterUser with
             messages := afterUser.messages ++
               [{ sender := "bot", text := answer, sources := some (sources.getD []) }],
             loading := false }, true)
    | .failure =>
        ({ afterUser with
             messages := afterUser.messages ++
               [{ sender := "bot", text := chatErrorFallback, sources := none }],
             loading := false }, true)

/-- Concrete inputs used by witnesses: a valid 2 MB pdf, an invalid exe,
and a valid-type but oversized (11 MB) docx. -/
def demoPdf : JsFile := { name := "report.pdf", size := 2 * 1024 * 1024 }

def demoExe : JsFile := { name := "tool.exe", size := 1024 }

def demoDocx : JsFile := { name := "big.docx", size := 11 * 1024 * 1024 }

def demoBatch : List JsFile := [demoPdf, demoExe, demoDocx]

/-- A freshly mounted uploader: empty selection, empty message, idle. -/
def demoState : UploaderState :=
  { files := [], message := { text := "", type := "" }, isUploading := false,
    uploadProgress := 0, requestInFlight := false, intervalActive := false }

/-- An uploader with a nonempty selection, about to submit. -/
def demoReadyState : UploaderState :=
  { demoState with files := [demoPdf] }

/-- An uploader currently displaying an error message. -/
def demoErrorState : UploaderState :=
  { demoState with message := { text := "old error", type := "error" } }

/-- A chat with a pending question typed into the input buffer. -/
def demoChatState : ChatState :=
  { messages := [], input := "find suppliers", loading := false }

theorem data_append (s t : String) : (s ++ t).data = s.data ++ t.data := by
  rw [String.congr_append]

theorem dot_cancel {a b : String} (h : "." ++ a = "." ++ b) : a = b := by
  have hd := congrArg String.data h
  rw [data_append, data_append] at hd
  have hdot : (".").data = ['.'] := rfl
  rw [hdot] at hd
  simp only [List.singleton_append, List.cons.injEq, true_and] at hd
  exact String.ext hd

theorem mem_allowed_iff (e : String) : ("." ++ e) ∈ allowedTypes ↔ e ∈ allowedExts := by
  constructor
  · intro hm
    simp only [allowedTypes, List.mem_cons, List.not_mem_nil, or_false] at hm
    simp only [allowedExts, List.mem_cons, List.not_mem_nil, or_false]
    rcases hm with h | h | h | h | h | h
    · exact Or.inl (dot_cancel (h.trans (by decide)))
    · exact Or.inr (Or.inl (dot_cancel (h.trans (by decide))))
    · exact Or.inr (Or.inr (Or.inl (dot_cancel (h.trans (by decide)))))
    · exact Or.inr (Or.inr (Or.inr (Or.inl (dot_cancel (h.trans (by decide))))))
    · exact Or.inr (Or.inr (Or.inr (Or.inr (Or.inl (dot_cancel (h.trans (by decide)))))))
    · exact Or.inr (Or.inr (Or.inr (Or.inr (Or.inr (dot_cancel (h.trans (by decide)))))))
  · intro hm
    simp only [allowedExts, List.mem_cons, List.not_mem_nil, or_false] at hm
    rcases hm with h | h | h | h | h | h <;> subst h <;> decide

theorem extAllowed_iff (name : String) :
    extAllowed name ↔ fileExtension name ∈ allowedTypes := by
  unfold extAllowed fileExtension
  exact (mem_allowed_iff _).symm

theorem validateFiles_validFiles (l : List JsFile) :
    (validateFiles l).validFiles =
      l.filter (fun f => classifyFile f == FileOutcome.accepted) := by
  induction l with
  | nil => rfl
  | cons f rest ih =>
    cases h : classifyFile f <;>
      simp [validateFiles, h, ih, List.filter_cons]

theorem validateFiles_invalidFiles (l : List JsFile) :
    (validateFiles l).invalidFiles =
      (l.filter fun f => !(classifyFile f == FileOutcome.accepted)).map rejectionMsg := by
  induction l with
  | nil => rfl
  | cons f rest ih =>
    cases h : classifyFile f <;>
      simp [validateFiles, h, ih, List.filter_cons, rejectionMsg]

theorem foldl_no_dot (cs : List Char) (acc : List Char) (h : '.' ∉ cs) :
    cs.foldl (fun acc c => if c = '.' then [] else acc ++ [c]) acc = acc ++ cs := by
  induction cs generalizing acc with
  | nil => simp
  | cons c rest ih =>
    have hc : ¬ c = '.' := fun e => h (e ▸ List.mem_cons_self c rest)
    have hrest : '.' ∉ rest := fun hm => h (List.mem_cons_of_mem c hm)
    simp only [List.foldl, if_neg hc, ih (acc ++ [c]) hrest, List.append_assoc,
      List.singleton_append]

theorem afterLastDot_no_dot (cs : List Char) (h : '.' ∉ cs) : afterLastDot cs = cs := by
  unfold afterLastDot
  rw [foldl_no_dot cs [] h]
  simp

theorem classifyFile_of_extAllowed {f : JsFile} (hext : extAllowed f.name) :
    classifyFile f =
      if f.size > maxFileSize then FileOutcome.rejectedTooLarge else FileOutcome.accepted := by
  unfold classifyFile
  rw [if_neg (fun hn => hn ((extAllowed_iff f.name).mp hext))]

/-- Claim C1: a file whose extension (the substring after the last dot of
its name, lower-cased) is not in the allow-list {pdf, txt, docx, doc, csv,
md} is rejected by the validator with the invalid-file-type reason
(its `invalidFiles` entry reads `name - Invalid file type`), regardless of
the file's size: it is classified as an invalid type and never appears
among the accepted files. -/
theorem validator_rejects_bad_extension (l : List JsFile) (f : JsFile)
    (hmem : f ∈ l) (hext : ¬ extAllowed f.name) :
    classifyFile f = FileOutcome.rejectedInvalidType ∧
    (f.name ++ " - Invalid file type") ∈ (validateFiles l).invalidFiles ∧
    f ∉ (validateFiles l).validFiles := by
  have hcls : classifyFile f = FileOutcome.rejectedInvalidType := by
    unfold classifyFile
    rw [if_pos (fun hmem2 => hext ((extAllowed_iff f.name).mpr hmem2))]
  refine ⟨hcls, ?_, ?_⟩
  · rw [validateFiles_invalidFiles]
    have hmsg : rejectionMsg f = f.name ++ " - Invalid file type" := by
      unfold rejectionMsg
      rw [hcls]
    rw [← hmsg]
    exact List.mem_map_of_mem _ (List.mem_filter.mpr ⟨hmem, by simp [hcls]⟩)
  · rw [validateFiles_validFiles]
    intro hmem2
    have hpred := (List.mem_filter.mp hmem2).2
    simp [hcls] at hpred

theorem validator_rejects_bad_extension_witness :
    classifyFile demoExe = FileOutcome.rejectedInvalidType ∧
    (demoExe.name ++ " - Invalid file type") ∈ (validateFiles demoBatch).invalidFiles ∧
    demoExe ∉ (validateFiles demoBatch).validFiles :=
  validator_rejects_bad_extension demoBatch demoExe (by decide) (by decide)

/-- Claim C2: for a file whose extension is in the allow-list, the validator
rejects it with the file-too-large reason exactly when its size exceeds
10485760 bytes (the size test only runs once the type test has passed), and
accepts it otherwise; the accepted output is the in-order filter of the
input, so accepted files keep their input order. -/
theorem validator_size_rule (l : List JsFile) (f : JsFile)
    (hmem : f ∈ l) (hext : extAllowed f.name) :
    (classifyFile f = FileOutcome.rejectedTooLarge ↔ 10485760 < f.size) ∧
    (10485760 < f.size →
      (f.name ++ " - File too large (max 10MB)") ∈ (validateFiles l).invalidFiles ∧
      f ∉ (validateFiles l).validFiles) ∧
    (f.size ≤ 10485760 →
      classifyFile f = FileOutcome.accepted ∧ f ∈ (validateFiles l).validFiles) ∧
    (validateFiles l).validFiles =
      l.filter (fun g => classifyFile g == FileOutcome.accepted) := by
  have hcls := classifyFile_of_extAllowed hext
  have hmax : maxFileSize = 10485760 := rfl
  refine ⟨⟨?_, ?_⟩, ?_, ?_, validateFiles_validFiles l⟩
  · intro h
    rw [hcls] at h
    by_cases hs : f.size > maxFileSize
    · rw [hmax] at hs
      exact hs
    · rw [if_neg hs] at h
      exact absurd h (by decide)
  · intro h
    have hs : f.size > maxFileSize := by rw [hmax]; exact h
    rw [hcls, if_pos hs]
  · intro h
    have hs : f.size > maxFileSize := by rw [hmax]; exact h
    have hlarge : classifyFile f = FileOutcome.rejectedTooLarge := by rw [hcls, if_pos hs]
    constructor
    · rw [validateFiles_invalidFiles]
      have hmsg : rejectionMsg f = f.name ++ " - File too large (max 10MB)" := by
        unfold rejectionMsg
        rw [hlarge]
      rw [← hmsg]
      exact List.mem_map_of_mem _ (List.mem_filter.mpr ⟨hmem, by simp [hlarge]⟩)
    · rw [validateFiles_validFiles]
      intro hmem2
      have hpred := (List.mem_filter.mp hmem2).2
      simp [hlarge] at hpred
  · intro h
    have hs : ¬ f.size > maxFileSize := by rw [hmax]; exact Nat.not_lt.mpr h
    have hacc : classifyFile f = FileOutcome.accepted := by rw [hcls, if_neg hs]
    refine ⟨hacc, ?_⟩
    rw [validateFiles_validFiles]
    exact List.mem_filter.mpr ⟨hmem, by simp [hacc]⟩

theorem validator_size_rule_witness :
    ((classifyFile demoDocx = FileOutcome.rejectedTooLarge ↔ 10485760 < demoDocx.size) ∧
      (10485760 < demoDocx.size →
        (demoDocx.name ++ " - File too large (max 10MB)") ∈ (validateFiles demoBatch).invalidFiles ∧
        demoDocx ∉ (validateFiles demoBatch).validFiles) ∧
      (demoDocx.size ≤ 10485760 →
        classifyFile demoDocx = FileOutcome.accepted ∧
        demoDocx ∈ (validateFiles demoBatch).validFiles) ∧
      (validateFiles demoBatch).validFiles =
        demoBatch.filter (fun g => classifyFile g == FileOutcome.accepted)) ∧
    ((classifyFile demoPdf = FileOutcome.rejectedTooLarge ↔ 10485760 < demoPdf.size) ∧
      (10485760 < demoPdf.size →
        (demoPdf.name ++ " - File too large (max 10MB)") ∈ (validateFiles demoBatch).invalidFiles ∧
        demoPdf ∉ (validateFiles demoBatch).validFiles) ∧
      (demoPdf.size ≤ 10485760 →
        classifyFile demoPdf = FileOutcome.accepted ∧
        demoPdf ∈ (validateFiles demoBatch).validFiles) ∧
      (validateFiles demoBatch).validFiles =
        demoBatch.filter (fun g => classifyFile g == FileOutcome.accepted)) :=
  ⟨validator_size_rule demoBatch demoDocx (by decide) (by decide),
   validator_size_rule demoBatch demoPdf (by decide) (by decide)⟩

/-- Claim C9: for a file whose name contains no dot, the validator treats
the entire name as the extension: the computed extension is the dot
followed by the lower-cased name, so a file named (up to letter case) one
of pdf, txt, docx, doc, csv, md is accepted when within the size limit,
while every other dotless name is classified as an invalid type, with the
`name - Invalid file type` rejection reason. -/
theorem validator_dotless_name (f : JsFile) (hnd : '.' ∉ f.name.data) :
    fileExtension f.name = "." ++ jsToLower f.name ∧
    (jsToLower f.name ∈ allowedExts → f.size ≤ maxFileSize →
        classifyFile f = FileOutcome.accepted) ∧
    (jsToLower f.name ∉ allowedExts →
        classifyFile f = FileOutcome.rejectedInvalidType ∧
        rejectionMsg f = f.name ++ " - Invalid file type") := by
  have hext : fileExtension f.name = "." ++ jsToLower f.name := by
    unfold fileExtension
    rw [afterLastDot_no_dot _ hnd]
  have hall : extAllowed f.name ↔ jsToLower f.name ∈ allowedExts := by
    unfold extAllowed
    rw [afterLastDot_no_dot _ hnd]
  refine ⟨hext, ?_, ?_⟩
  · intro hmem hsize
    have hcls := classifyFile_of_extAllowed (hall.mpr hmem)
    rw [hcls, if_neg (Nat.not_lt.mpr (by rw [(rfl : maxFileSize = 10485760)]; exact hsize))]
  · intro hmem
    have hcls : classifyFile f = FileOutcome.rejectedInvalidType := by
      unfold classifyFile
      rw [if_pos (fun hmem2 => hmem (hall.mp ((extAllowed_iff f.name).mpr hmem2)))]
    refine ⟨hcls, ?_⟩
    unfold rejectionMsg
    rw [hcls]

theorem validator_dotless_name_witness :
    classifyFile { name := "PDF", size := 100 } = FileOutcome.accepted ∧
    (classifyFile { name := "notes", size := 5 } = FileOutcome.rejectedInvalidType ∧
      rejectionMsg { name := "notes", size := 5 } =
        ("notes" : String) ++ " - Invalid file type") :=
  ⟨(validator_dotless_name { name := "PDF", size := 100 } (by decide)).2.1
      (by decide) (by decide),
   (validator_dotless_name { name := "notes", size := 5 } (by decide)).2.2 (by decide)⟩

/-- Claim C3: for any batch handed to the file-selection handler in which
at least one file is rejected, the aggregate error message joins one
`name - reason` entry per rejected file (in input order, as the third
conjunct characterises `invalidFiles`), and the selection still becomes
exactly the accepted subset; in particular the mixed demo batch (valid 2MB
pdf, invalid exe, valid-type 11MB docx) yields selection [the pdf] and an
error naming both the exe and the oversized docx. -/
theorem selectFiles_partial_rejection :
    (∀ (l : List JsFile) (s : UploaderState),
        (validateFiles l).invalidFiles ≠ [] →
        (handleFilesChange l s).files = (validateFiles l).validFiles ∧
        (handleFilesChange l s).message =
          { text := "Invalid files: " ++ String.intercalate ", " (validateFiles l).invalidFiles,
            type := "error" } ∧
        (validateFiles l).invalidFiles =
          ((l.filter fun f => !(classifyFile f == FileOutcome.accepted)).map rejectionMsg)) ∧
    ((handleFilesChange demoBatch demoState).files = [demoPdf] ∧
      (handleFilesChange demoBatch demoState).message =
        { text := "Invalid files: tool.exe - Invalid file type, big.docx - File too large (max 10MB)",
          type := "error" }) := by
  constructor
  · intro l s hrej
    have hne : ¬ l.length = 0 := by
      intro h0
      rw [List.length_eq_zero] at h0
      subst h0
      exact hrej rfl
    have hlen : (validateFiles l).invalidFiles.length > 0 := List.length_pos.mpr hrej
    refine ⟨?_, ?_, validateFiles_invalidFiles l⟩ <;>
      simp [handleFilesChange, hne, hlen]
  · exact ⟨by decide, by decide⟩

theorem selectFiles_partial_rejection_witness :
    (handleFilesChange demoBatch demoErrorState).files = (validateFiles demoBatch).validFiles ∧
    (handleFilesChange demoBatch demoErrorState).message =
      { text := "Invalid files: " ++
          String.intercalate ", " (validateFiles demoBatch).invalidFiles,
        type := "error" } ∧
    (validateFiles demoBatch).invalidFiles =
      ((demoBatch.filter fun f => !(classifyFile f == FileOutcome.accepted)).map rejectionMsg) :=
  selectFiles_partial_rejection.1 demoBatch demoErrorState (by decide)

/-- Claim C4: submitting with an empty selection issues no network request,
leaves the selection and the whole upload state (uploading flag,
percentage, in-flight request, interval) unchanged, and surfaces the
please-select-files-to-upload error message. -/
theorem submit_empty_selection (s : UploaderState) (h : s.files = []) :
    (handleSubmitStart s).2 = false ∧
    (handleSubmitStart s).1.files = s.files ∧
    (handleSubmitStart s).1.isUploading = s.isUploading ∧
    (handleSubmitStart s).1.uploadProgress = s.uploadProgress ∧
    (handleSubmitStart s).1.requestInFlight = s.requestInFlight ∧
    (handleSubmitStart s).1.intervalActive = s.intervalActive ∧
    (handleSubmitStart s).1.message =
      { text := "Please select files to upload", type := "error" } := by
  have h0 : s.files.length = 0 := by rw [h]; rfl
  simp [handleSubmitStart, h0]

theorem submit_empty_selection_witness :
    (handleSubmitStart demoState).2 = false ∧
    (handleSubmitStart demoState).1.files = demoState.files ∧
    (handleSubmitStart demoState).1.isUploading = demoState.isUploading ∧
    (handleSubmitStart demoState).1.uploadProgress = demoState.uploadProgress ∧
    (handleSubmitStart demoState).1.requestInFlight = demoState.requestInFlight ∧
    (handleSubmitStart demoState).1.intervalActive = demoState.intervalActive ∧
    (handleSubmitStart demoState).1.message =
      { text := "Please select files to upload", type := "error" } :=
  submit_empty_selection demoState (by decide)

/-- Claim C5 as stated is false at a failure whose structured detail field
is present but empty: with body fields detail = "" and message = "", the
claimed precedence surfaces the present detail field (the empty string),
but the code's JavaScript-falsiness fallback surfaces the generic text. -/
theorem failure_precedence_counterexample :
    (handleSubmitResponse (UploadOutcome.failure (some "") (some ""))
        demoReadyState).1.message.text =
      "Error uploading files. Please try a smaller file." ∧
    (handleSubmitResponse (UploadOutcome.failure (some "") (some ""))
        demoReadyState).1.message.text ≠ "" :=
  ⟨by decide, by decide⟩

/-- Claim C5 (amended): on submission failure the displayed percentage is
reset to 0 immediately, the selection is unchanged so the user may retry,
the message type is error, and the surfaced text follows the precedence:
the structured detail field when present and non-empty, else the
structured message field when present and non-empty, else the generic
fallback; in particular a body with detail "disk full" displays
"disk full". -/
theorem submit_failure_amended :
    (∀ (s : UploaderState) (d m : Option String),
        (handleSubmitResponse (UploadOutcome.failure d m) s).1.uploadProgress = 0 ∧
        (handleSubmitResponse (UploadOutcome.failure d m) s).1.files = s.files ∧
        (handleSubmitResponse (UploadOutcome.failure d m) s).1.message.type = "error") ∧
    (∀ (s : UploaderState) (d : String) (m : Option String), d ≠ "" →
        (handleSubmitResponse (UploadOutcome.failure (some d) m) s).1.message.text = d) ∧
    (∀ (s : UploaderState) (d : Option String) (m : String),
        (d = none ∨ d = some "") → m ≠ "" →
        (handleSubmitResponse (UploadOutcome.failure d (some m)) s).1.message.text = m) ∧
    (∀ (s : UploaderState) (d m : Option String),
        (d = none ∨ d = some "") → (m = none ∨ m = some "") →
        (handleSubmitResponse (UploadOutcome.failure d m) s).1.message.text =
          uploadErrorFallback) ∧
    (∀ (s : UploaderState) (m : Option String),
        (handleSubmitResponse (UploadOutcome.failure (some "disk full") m) s).1.message.text =
          "disk full") := by
  refine ⟨?_, ?_, ?_, ?_, ?_⟩
  · intro s d m
    simp [handleSubmitResponse]
  · intro s d m hd
    simp [handleSubmitResponse, failureText, jsOrElse, hd]
  · intro s d m hdnone hm
    rcases hdnone with h | h <;> subst h <;>
      simp [handleSubmitResponse, failureText, jsOrElse, hm]
  · intro s d m hd hm
    rcases hd with h | h <;> rcases hm with h2 | h2 <;> subst h <;> subst h2 <;>
      simp [handleSubmitResponse, failureText, jsOrElse]
  · intro s m
    simp [handleSubmitResponse, failureText, jsOrElse]

theorem submit_failure_amended_witness :
    (handleSubmitResponse (UploadOutcome.failure (some "disk full") none)
        demoReadyState).1.message.text = "disk full" ∧
    (handleSubmitResponse (UploadOutcome.failure none (some "oops"))
        demoReadyState).1.message.text = "oops" ∧
    (handleSubmitResponse (UploadOutcome.failure none none)
        demoReadyState).1.message.text = uploadErrorFallback :=
  ⟨submit_failure_amended.2.1 demoReadyState "disk full" none (by decide),
   submit_failure_amended.2.2.1 demoReadyState none "oops" (Or.inl rfl) (by decide),
   submit_failure_amended.2.2.2.1 demoReadyState none none (Or.inl rfl) (Or.inl rfl)⟩

/-- Claim C6: when the submission succeeds, the progress interval is
cleared, the displayed percentage becomes 100, the displayed message is
the backend's message field verbatim with the success type, the selection
becomes empty, and a reset of the percentage to 0 is scheduled with a
2000-millisecond delay. -/
theorem submit_success_effects (s : UploaderState) (m : String) :
    (handleSubmitResponse (UploadOutcome.success m) s).1.intervalActive = false ∧
    (handleSubmitResponse (UploadOutcome.success m) s).1.uploadProgress = 100 ∧
    (handleSubmitResponse (UploadOutcome.success m) s).1.message =
      { text := m, type := "success" } ∧
    (handleSubmitResponse (UploadOutcome.success m) s).1.files = [] ∧
    (handleSubmitResponse (UploadOutcome.success m) s).2 = some 2000 ∧
    (progressResetTask (handleSubmitResponse (UploadOutcome.success m) s).1).uploadProgress
      = 0 := by
  simp [handleSubmitResponse, progressResetTask]

/-- Claim C7 as stated is false: after cancel, the Cancelled display
(warning "Upload cancelled") is showing, yet when the still-in-flight
request settles successfully, the unguarded success continuation changes
the displayed state again — the Cancelled display state is not terminal. -/
theorem cancel_not_terminal_counterexample :
    (cancelUpload (handleSubmitStart demoReadyState).1).message =
      { text := "Upload cancelled", type := "warning" } ∧
    (handleSubmitResponse (UploadOutcome.success "Files uploaded successfully")
        (cancelUpload (handleSubmitStart demoReadyState).1)).1.message ≠
      { text := "Upload cancelled", type := "warning" } :=
  ⟨by decide, by decide⟩

/-- Claim C7 (amended): cancel during a submission switches the display to
the Cancelled state (warning "Upload cancelled", percentage 0, no longer
shown as uploading) and does not abort the in-flight request (the request
and selection are untouched); the Cancelled display is not terminal:
when the still-running request later succeeds, the normal success
continuation rewrites the displayed state. -/
theorem cancelUpload_amended (s : UploaderState) :
    (cancelUpload s).message = { text := "Upload cancelled", type := "warning" } ∧
    (cancelUpload s).isUploading = false ∧
    (cancelUpload s).uploadProgress = 0 ∧
    (cancelUpload s).requestInFlight = s.requestInFlight ∧
    (cancelUpload s).files = s.files ∧
    (∀ m : String,
      (handleSubmitResponse (UploadOutcome.success m) (cancelUpload s)).1.message =
        { text := m, type := "success" }) := by
  simp [cancelUpload, handleSubmitResponse]

/-- Claim C8: sending an empty or whitespace-only text changes nothing and
issues no request; sending a non-whitespace text whose request succeeds
appends exactly one user turn carrying that text followed by exactly one
bot turn carrying the returned answer and the returned source labels in
order (the empty sequence when the response provides none). -/
theorem sendMessage_turns :
    (∀ (o : AskOutcome) (s : ChatState), jsTrim s.input = "" →
        sendMessage o s = (s, false)) ∧
    (∀ (s : ChatState) (answer : String) (sources : Option (List String)),
        jsTrim s.input ≠ "" →
        (sendMessage (AskOutcome.success answer sources) s).1.messages =
          s.messages ++
            [{ sender := "user", text := s.input, sources := none },
             { sender := "bot", text := answer, sources := some (sources.getD []) }] ∧
        (sendMessage (AskOutcome.success answer sources) s).2 = true) := by
  constructor
  · intro o s h
    simp [sendMessage, h]
  · intro s answer sources h
    simp [sendMessage, h]

theorem sendMessage_turns_witness :
    sendMessage AskOutcome.failure { messages := [], input := "   ", loading := false } =
      ({ messages := [], input := "   ", loading := false }, false) ∧
    ((sendMessage (AskOutcome.success "Here are two suppliers."
          (some ["doc1", "doc2"])) demoChatState).1.messages =
        demoChatState.messages ++
          [{ sender := "user", text := demoChatState.input, sources := none },
           { sender := "bot", text := "Here are two suppliers.",
             sources := some ((some ["doc1", "doc2"]).getD []) }] ∧
      (sendMessage (AskOutcome.success "Here are two suppliers."
          (some ["doc1", "doc2"])) demoChatState).2 = true) :=
  ⟨sendMessage_turns.1 AskOutcome.failure _ (by decide),
   sendMessage_turns.2 demoChatState "Here are two suppliers." (some ["doc1", "doc2"])
     (by decide)⟩

/-- Claim C10: a nonempty all-accepted batch leaves the previously
displayed message untouched when supplied via drag-and-drop, while the
same batch supplied via the file input clears the displayed message; on
both paths the selection is replaced by the accepted subset. -/
theorem drop_keeps_message_input_clears (l : List JsFile) (s : UploaderState)
    (hne : l ≠ []) (hall : ∀ f ∈ l, classifyFile f = FileOutcome.accepted) :
    (handleDrop l s).message = s.message ∧
    (handleDrop l s).files = (validateFiles l).validFiles ∧
    (handleFilesChange l s).message = { text := "", type := "" } ∧
    (handleFilesChange l s).files = (validateFiles l).validFiles := by
  have hinv : (validateFiles l).invalidFiles = [] := by
    rw [validateFiles_invalidFiles]
    have hfil : l.filter (fun f => !(classifyFile f == FileOutcome.accepted)) = [] := by
      rw [List.filter_eq_nil_iff]
      intro a ha
      simp [hall a ha]
    rw [hfil]
    rfl
  have hlen0 : ¬ l.length = 0 := fun h0 => hne (List.length_eq_zero.mp h0)
  have hinvlen : ¬ (validateFiles l).invalidFiles.length > 0 := by
    rw [hinv]
    simp
  simp [handleDrop, handleFilesChange, hlen0, hinvlen]

theorem drop_keeps_message_input_clears_witness :
    (handleDrop [demoPdf] demoErrorState).message = demoErrorState.message ∧
    (handleDrop [demoPdf] demoErrorState).files = (validateFiles [demoPdf]).validFiles ∧
    (handleFilesChange [demoPdf] demoErrorState).message = { text := "", type := "" } ∧
    (handleFilesChange [demoPdf] demoErrorState).files =
      (validateFiles [demoPdf]).validFiles :=
  drop_keeps_message_input_clears [demoPdf] demoErrorState (by decide) (by decide)

end Rag
